import Mathlib

/-!
Shallow embedding of the storage component in server/storage.ts of the
DRPTMprogres repository: a PostgreSQL-backed persistence layer for sensor
readings, a logical-singleton system-status record, and a logical-singleton
alert-settings record.

Modelling conventions:
- Each table is a list of row structures inside a single `Store` state.
- `NOW()` is a logical clock (`Store.clock`, a natural number) that advances
  by one each time a statement writes a fresh timestamp; generated UUIDs are
  modelled by a counter `Store.nextId`.
- DECIMAL columns and JavaScript numbers are modelled as rationals.
- The SQL mapping of a TIMESTAMP column to an ISO string (`toISOString`) is
  modelled by rendering the clock value with `toString`; the `last_update`
  column is carried as a string because callers may also write arbitrary
  strings into it through partial updates.
- Thrown JavaScript errors become `Except DbError`; the error constructors
  follow the taxonomy of the specification (validation vs. missing-singleton
  errors).  An operation that throws returns no new store, which models the
  fact that the failing paths of the source issue no writes.
- `ORDER BY updated_at DESC LIMIT 1` becomes a deterministic selection of the
  row with the greatest `updatedAt`.
-/

namespace DRPTM

abbrev Time := Nat

/-- A row of hydroponic_sensor_readings. -/
structure ReadingRow where
  id : Nat
  timestamp : Time
  temperature : Rat
  ph : Rat
  tdsLevel : Rat
  createdAt : Time
deriving Repr, DecidableEq

/-- A row of hydroponic_system_status. -/
structure StatusRow where
  id : Nat
  connectionStatus : String
  lastUpdate : String
  dataPoints : Int
  cpuUsage : Rat
  memoryUsage : Rat
  storageUsage : Rat
  uptime : String
  updatedAt : Time
deriving Repr, DecidableEq

/-- A row of hydroponic_alert_settings. -/
structure AlertRow where
  id : Nat
  temperatureAlerts : Bool
  phAlerts : Bool
  tdsLevelAlerts : Bool
  updatedAt : Time
deriving Repr, DecidableEq

/-- The database state: the three tables plus the logical clock and the
id generator. -/
structure Store where
  readings : List ReadingRow
  statusRows : List StatusRow
  alertRows : List AlertRow
  clock : Time
  nextId : Nat
deriving Repr, DecidableEq

/-- The row shape returned by getSystemStatus / updateSystemStatus
(updated_at is not part of the SELECT list). -/
structure SystemStatus where
  id : Nat
  connectionStatus : String
  lastUpdate : String
  dataPoints : Int
  cpuUsage : Rat
  memoryUsage : Rat
  storageUsage : Rat
  uptime : String
deriving Repr, DecidableEq

/-- The shape returned by getAlertSettings / updateAlertSettings. -/
structure AlertSettings where
  temperatureAlerts : Bool
  phAlerts : Bool
  tdsLevelAlerts : Bool
deriving Repr, DecidableEq

/-- Errors thrown by the repository, following the taxonomy of the spec:
range-validation failures and missing-singleton failures. -/
inductive DbError where
  | validationError (msg : String)
  | notFoundError (msg : String)
deriving Repr, DecidableEq

/-- SELECT ... FROM hydroponic_system_status ORDER BY updated_at DESC
LIMIT 1: the row with the greatest updated_at. -/
def mostRecentStatus : List StatusRow → Option StatusRow
  | [] => none
  | r :: rs =>
    match mostRecentStatus rs with
    | none => some r
    | some m => if r.updatedAt < m.updatedAt then some m else some r

/-- SELECT ... FROM hydroponic_alert_settings ORDER BY updated_at DESC
LIMIT 1: the row with the greatest updated_at. -/
def mostRecentAlert : List AlertRow → Option AlertRow
  | [] => none
  | r :: rs =>
    match mostRecentAlert rs with
    | none => some r
    | some m => if r.updatedAt < m.updatedAt then some m else some r

/-- Default system-status row inserted by initializeTables:
VALUES ('connected', 0, 23, 30, 26, '0s'), with last_update and updated_at
defaulting to NOW(). -/
def defaultStatusRow (id : Nat) (now : Time) : StatusRow :=
  { id := id
    connectionStatus := "connected"
    lastUpdate := toString now
    dataPoints := 0
    cpuUsage := 23
    memoryUsage := 30
    storageUsage := 26
    uptime := "0s"
    updatedAt := now }

/-- Default alert-settings row inserted by initializeTables:
VALUES (true, true, false). -/
def defaultAlertRow (id : Nat) (now : Time) : AlertRow :=
  { id := id
    temperatureAlerts := true
    phAlerts := true
    tdsLevelAlerts := false
    updatedAt := now }

/-- initializeTables: the CREATE TABLE IF NOT EXISTS statements have no
effect on the modelled state (the tables always exist as lists); then a
default status row is inserted if the status table is empty, and a default
alert-settings row is inserted if the alert-settings table is empty. -/
def initializeTables (s : Store) : Store :=
  let s1 :=
    if s.statusRows.length = 0 then
      { s with
        statusRows := s.statusRows ++ [defaultStatusRow s.nextId s.clock]
        nextId := s.nextId + 1
        clock := s.clock + 1 }
    else s
  if s1.alertRows.length = 0 then
    { s1 with
      alertRows := s1.alertRows ++ [defaultAlertRow s1.nextId s1.clock]
      nextId := s1.nextId + 1
      clock := s1.clock + 1 }
  else s1

/-- Ordering used by getSensorReadings: ORDER BY timestamp DESC. -/
def readingDesc (a b : ReadingRow) : Prop := b.timestamp ≤ a.timestamp

instance : DecidableRel readingDesc := fun _ _ => Nat.decLe _ _

instance : IsTotal ReadingRow readingDesc :=
  ⟨fun a b => Nat.le_total b.timestamp a.timestamp⟩

instance : IsTrans ReadingRow readingDesc :=
  ⟨fun _ _ _ h1 h2 => Nat.le_trans h2 h1⟩

/-- Ordering used by getSensorReadingsByTimeRange: ORDER BY timestamp ASC. -/
def readingAsc (a b : ReadingRow) : Prop := a.timestamp ≤ b.timestamp

instance : DecidableRel readingAsc := fun _ _ => Nat.decLe _ _

instance : IsTotal ReadingRow readingAsc :=
  ⟨fun a b => Nat.le_total a.timestamp b.timestamp⟩

instance : IsTrans ReadingRow readingAsc :=
  ⟨fun _ _ _ h1 h2 => Nat.le_trans h1 h2⟩

/-- getSensorReadings(limit): SELECT ... ORDER BY timestamp DESC LIMIT $1. -/
def getSensorReadings (s : Store) (limit : Nat) : List ReadingRow :=
  (List.insertionSort readingDesc s.readings).take limit

/-- getSensorReadings(): the limit parameter defaults to 50. -/
def getSensorReadingsDefault (s : Store) : List ReadingRow :=
  getSensorReadings s 50

/-- getSensorReadingsByTimeRange(startTime, endTime):
WHERE timestamp BETWEEN $1 AND $2 ORDER BY timestamp ASC
(BETWEEN is inclusive at both ends). -/
def getSensorReadingsByTimeRange (s : Store) (startTime endTime : Time) :
    List ReadingRow :=
  List.insertionSort readingAsc
    (s.readings.filter fun r =>
      decide (startTime ≤ r.timestamp) && decide (r.timestamp ≤ endTime))

/-- createSensorReading: validates the three measurements against their
documented ranges before issuing any statement, then inserts the reading
(timestamp and created_at default to NOW()) and refreshes the most recently
updated status row with data_points = COUNT(*) over all readings,
last_update = NOW(), updated_at = NOW(). -/
def createSensorReading (s : Store) (temperature ph tdsLevel : Rat) :
    Except DbError (ReadingRow × Store) :=
  if temperature < -50 ∨ 100 < temperature then
    .error (.validationError "Temperature must be between -50 and 100°C")
  else if ph < 0 ∨ 14 < ph then
    .error (.validationError "pH must be between 0 and 14")
  else if tdsLevel < 0 ∨ 5000 < tdsLevel then
    .error (.validationError "TDS Level must be between 0 and 5000 ppm")
  else
    let row : ReadingRow :=
      { id := s.nextId
        timestamp := s.clock
        temperature := temperature
        ph := ph
        tdsLevel := tdsLevel
        createdAt := s.clock }
    let readings1 := s.readings ++ [row]
    let now2 := s.clock + 1
    let statusRows1 :=
      match mostRecentStatus s.statusRows with
      | none => s.statusRows
      | some m =>
        s.statusRows.map fun r =>
          if r.id = m.id then
            { r with
              dataPoints := (readings1.length : Int)
              lastUpdate := toString now2
              updatedAt := now2 }
          else r
    .ok (row,
      { s with
        readings := readings1
        statusRows := statusRows1
        clock := now2 + 1
        nextId := s.nextId + 1 })

/-- Row-shape mapping used by getSystemStatus and updateSystemStatus. -/
def statusRowToSystemStatus (r : StatusRow) : SystemStatus :=
  { id := r.id
    connectionStatus := r.connectionStatus
    lastUpdate := r.lastUpdate
    dataPoints := r.dataPoints
    cpuUsage := r.cpuUsage
    memoryUsage := r.memoryUsage
    storageUsage := r.storageUsage
    uptime := r.uptime }

/-- getSystemStatus: selects the most recently updated status row; throws
when the table is empty. -/
def getSystemStatus (s : Store) : Except DbError SystemStatus :=
  match mostRecentStatus s.statusRows with
  | none => .error (.notFoundError "No system status found in database")
  | some m => .ok (statusRowToSystemStatus m)

/-- The Partial SystemStatus argument of updateSystemStatus: every mutable
field may be absent. -/
structure StatusPatch where
  connectionStatus : Option String := none
  lastUpdate : Option String := none
  dataPoints : Option Int := none
  cpuUsage : Option Rat := none
  memoryUsage : Option Rat := none
  storageUsage : Option Rat := none
  uptime : Option String := none
deriving Repr, DecidableEq

/-- JavaScript truthiness guard used for the string-valued fields
(if (status.field) ...): a supplied empty string is falsy and the field is
dropped; an absent field is dropped. -/
def applyTruthy (o : Option String) (cur : String) : String :=
  match o with
  | some v => if v = "" then cur else v
  | none => cur

/-- Guard used for the numeric fields (if (status.field !== undefined) ...):
any supplied value is applied, including 0. -/
def applyDefined {α : Type} (o : Option α) (cur : α) : α :=
  o.getD cur

/-- The dynamic SET clause of updateSystemStatus applied to one row: only
the supplied (and, for strings, truthy) fields change, and
updated_at = NOW() is always appended. -/
def applyStatusPatch (p : StatusPatch) (now : Time) (r : StatusRow) :
    StatusRow :=
  { id := r.id
    connectionStatus := applyTruthy p.connectionStatus r.connectionStatus
    lastUpdate := applyTruthy p.lastUpdate r.lastUpdate
    dataPoints := applyDefined p.dataPoints r.dataPoints
    cpuUsage := applyDefined p.cpuUsage r.cpuUsage
    memoryUsage := applyDefined p.memoryUsage r.memoryUsage
    storageUsage := applyDefined p.storageUsage r.storageUsage
    uptime := applyTruthy p.uptime r.uptime
    updatedAt := now }

/-- updateSystemStatus: looks up the id of the most recently updated status
row (throws when the table is empty), builds the dynamic update statement
from the supplied fields plus the updated_at touch, applies it to the row
with that id, and returns the updated row re-mapped.  Note the source has
no emptiness check on the supplied field set: with no supplied field the
update still runs and refreshes updated_at only. -/
def updateSystemStatus (s : Store) (p : StatusPatch) :
    Except DbError (SystemStatus × Store) :=
  match mostRecentStatus s.statusRows with
  | none => .error (.notFoundError "No system status found in database")
  | some m =>
    let now := s.clock
    let statusRows1 :=
      s.statusRows.map fun r =>
        if r.id = m.id then applyStatusPatch p now r else r
    .ok (statusRowToSystemStatus (applyStatusPatch p now m),
      { s with statusRows := statusRows1, clock := now + 1 })

/-- getAlertSettings: selects the most recently updated alert-settings row;
when the table is empty it inserts the hard-coded defaults
(temperature=true, ph=true, tds=false) and returns them. -/
def getAlertSettings (s : Store) : AlertSettings × Store :=
  match mostRecentAlert s.alertRows with
  | some m =>
    ({ temperatureAlerts := m.temperatureAlerts
       phAlerts := m.phAlerts
       tdsLevelAlerts := m.tdsLevelAlerts }, s)
  | none =>
    ({ temperatureAlerts := true, phAlerts := true, tdsLevelAlerts := false },
      { s with
        alertRows := s.alertRows ++
          [{ id := s.nextId
             temperatureAlerts := true
             phAlerts := true
             tdsLevelAlerts := false
             updatedAt := s.clock }]
        nextId := s.nextId + 1
        clock := s.clock + 1 })

/-- updateAlertSettings: a full replace of the three booleans on the most
recently updated row (plus the updated_at touch); when zero rows matched
(empty table) a new row with the given values is inserted.  Either path
returns the given values (the RETURNING clause of the statement that ran). -/
def updateAlertSettings (s : Store) (a : AlertSettings) :
    AlertSettings × Store :=
  match mostRecentAlert s.alertRows with
  | some m =>
    let now := s.clock
    let alertRows1 :=
      s.alertRows.map fun r =>
        if r.id = m.id then
          { r with
            temperatureAlerts := a.temperatureAlerts
            phAlerts := a.phAlerts
            tdsLevelAlerts := a.tdsLevelAlerts
            updatedAt := now }
        else r
    (a, { s with alertRows := alertRows1, clock := now + 1 })
  | none =>
    (a,
      { s with
        alertRows := s.alertRows ++
          [{ id := s.nextId
             temperatureAlerts := a.temperatureAlerts
             phAlerts := a.phAlerts
             tdsLevelAlerts := a.tdsLevelAlerts
             updatedAt := s.clock }]
        nextId := s.nextId + 1
        clock := s.clock + 1 })

/-- The empty database state. -/
def emptyStore : Store :=
  { readings := [], statusRows := [], alertRows := [], clock := 0, nextId := 0 }

/-- Bootstrapped store used as a concrete input by the witnesses and
counterexamples: one default status row (id 0, inserted at time 0) and one
default alert-settings row (id 1, inserted at time 1). -/
def initStore : Store := initializeTables emptyStore

/-- The store produced by an empty-field-set updateSystemStatus on
initStore: the status row is the default row with its updated_at touched
from 0 to 2. -/
def touchedStore : Store :=
  { readings := []
    statusRows := [{ defaultStatusRow 0 0 with updatedAt := 2 }]
    alertRows := [defaultAlertRow 1 1]
    clock := 3
    nextId := 2 }

/-- Concrete reading row produced by createSensorReading on initStore with
temperature 25, ph 7, tdsLevel 500. -/
def rowV : ReadingRow :=
  { id := 2, timestamp := 2, temperature := 25, ph := 7, tdsLevel := 500,
    createdAt := 2 }

/-- The store produced by createSensorReading initStore 25 7 500: the
reading is appended and the status row carries dataPoints 1 with refreshed
timestamps. -/
def afterCreateStore : Store :=
  { readings := [rowV]
    statusRows := [{ defaultStatusRow 0 0 with
      dataPoints := 1, lastUpdate := "3", updatedAt := 3 }]
    alertRows := [defaultAlertRow 1 1]
    clock := 4
    nextId := 3 }

/-- Sample readings with pairwise distinct, deliberately unsorted
timestamps, used by the query witnesses. -/
def rowA : ReadingRow :=
  { id := 0, timestamp := 5, temperature := 25, ph := 7, tdsLevel := 500,
    createdAt := 5 }

def rowB : ReadingRow :=
  { id := 1, timestamp := 9, temperature := 26, ph := 8, tdsLevel := 600,
    createdAt := 9 }

def rowC : ReadingRow :=
  { id := 2, timestamp := 7, temperature := 24, ph := 6, tdsLevel := 400,
    createdAt := 7 }

/-- A populated store used by the query witnesses. -/
def sampleStore : Store :=
  { readings := [rowA, rowB, rowC]
    statusRows := [defaultStatusRow 3 10]
    alertRows := [defaultAlertRow 4 10]
    clock := 11
    nextId := 5 }

/-! ### Lemmas about the most-recent-row selections -/

theorem mostRecentStatus_eq_none_iff (l : List StatusRow) :
    mostRecentStatus l = none ↔ l = [] := by
  cases l with
  | nil => simp [mostRecentStatus]
  | cons r rs =>
    simp only [mostRecentStatus]
    cases h : mostRecentStatus rs with
    | none => simp
    | some m => by_cases hlt : r.updatedAt < m.updatedAt <;> simp [hlt]

theorem mostRecentStatus_mem {l : List StatusRow} {m : StatusRow}
    (h : mostRecentStatus l = some m) : m ∈ l := by
  induction l with
  | nil => simp [mostRecentStatus] at h
  | cons r rs ih =>
    simp only [mostRecentStatus] at h
    split at h
    · simp only [Option.some.injEq] at h
      subst h
      exact List.mem_cons_self _ _
    · next m0 hrs =>
      split at h
      · simp only [Option.some.injEq] at h
        subst h
        exact List.mem_cons_of_mem _ (ih hrs)
      · simp only [Option.some.injEq] at h
        subst h
        exact List.mem_cons_self _ _

theorem mostRecentStatus_le {l : List StatusRow} {m : StatusRow}
    (h : mostRecentStatus l = some m) :
    ∀ r ∈ l, r.updatedAt ≤ m.updatedAt := by
  induction l generalizing m with
  | nil => simp
  | cons a rs ih =>
    intro r hr
    simp only [mostRecentStatus] at h
    split at h
    · next hrs =>
      simp only [Option.some.injEq] at h
      subst h
      have hnil : rs = [] := (mostRecentStatus_eq_none_iff rs).mp hrs
      subst hnil
      rcases List.mem_cons.mp hr with rfl | hr2
      · exact Nat.le_refl _
      · simp at hr2
    · next m0 hrs =>
      split at h
      · next hlt =>
        simp only [Option.some.injEq] at h
        subst h
        rcases List.mem_cons.mp hr with rfl | hr2
        · exact Nat.le_of_lt hlt
        · exact ih hrs r hr2
      · next hlt =>
        simp only [Option.some.injEq] at h
        subst h
        rcases List.mem_cons.mp hr with rfl | hr2
        · exact Nat.le_refl _
        · exact Nat.le_trans (ih hrs r hr2) (Nat.le_of_not_lt hlt)

theorem mostRecentStatus_isSome_of_ne_nil {l : List StatusRow} (h : l ≠ []) :
    ∃ m, mostRecentStatus l = some m := by
  cases hm : mostRecentStatus l with
  | none => exact absurd ((mostRecentStatus_eq_none_iff l).mp hm) h
  | some m => exact ⟨m, rfl⟩

theorem mostRecentAlert_eq_none_iff (l : List AlertRow) :
    mostRecentAlert l = none ↔ l = [] := by
  cases l with
  | nil => simp [mostRecentAlert]
  | cons r rs =>
    simp only [mostRecentAlert]
    cases h : mostRecentAlert rs with
    | none => simp
    | some m => by_cases hlt : r.updatedAt < m.updatedAt <;> simp [hlt]

theorem mostRecentAlert_isSome_of_ne_nil {l : List AlertRow} (h : l ≠ []) :
    ∃ m, mostRecentAlert l = some m := by
  cases hm : mostRecentAlert l with
  | none => exact absurd ((mostRecentAlert_eq_none_iff l).mp hm) h
  | some m => exact ⟨m, rfl⟩

/-- When the current row of the status table is updated in place with a
strictly newer updated_at, the most recent row of the mapped table is the
updated version of a row that carried the current row's id. -/
theorem mostRecentStatus_map_update
    (l : List StatusRow) (m : StatusRow) (g : StatusRow → StatusRow)
    (hm : mostRecentStatus l = some m)
    (c T : Time)
    (hts : ∀ r ∈ l, r.updatedAt ≤ c)
    (hT : c < T)
    (hg : ∀ r, (g r).updatedAt = T)
    {m2 : StatusRow}
    (hm2 : mostRecentStatus
      (l.map fun r => if r.id = m.id then g r else r) = some m2) :
    ∃ r, r ∈ l ∧ r.id = m.id ∧ m2 = g r := by
  have hmem2 := mostRecentStatus_mem hm2
  obtain ⟨r, hr, hfr⟩ := List.mem_map.mp hmem2
  by_cases hid : r.id = m.id
  · rw [if_pos hid] at hfr
    exact ⟨r, hr, hid, hfr.symm⟩
  · rw [if_neg hid] at hfr
    exfalso
    have hmem : g m ∈ l.map fun r => if r.id = m.id then g r else r := by
      have := List.mem_map_of_mem (fun r : StatusRow =>
        if r.id = m.id then g r else r) (mostRecentStatus_mem hm)
      simpa using this
    have hle : T ≤ m2.updatedAt := by
      have := mostRecentStatus_le hm2 _ hmem
      rwa [hg m] at this
    have hc : m2.updatedAt ≤ c := by
      rw [← hfr]
      exact hts r hr
    exact Nat.lt_irrefl c (Nat.lt_of_lt_of_le hT (Nat.le_trans hle hc))

/-- Existence form of the previous lemma: after updating the current row in
place with a strictly newer updated_at, the selection lands on the updated
version of a row carrying the current row's id. -/
theorem mostRecentStatus_map_current
    (l : List StatusRow) (m : StatusRow) (g : StatusRow → StatusRow)
    (hm : mostRecentStatus l = some m)
    (c T : Time)
    (hts : ∀ r ∈ l, r.updatedAt ≤ c)
    (hT : c < T)
    (hg : ∀ r, (g r).updatedAt = T) :
    ∃ r, r ∈ l ∧ r.id = m.id ∧
      mostRecentStatus (l.map fun x => if x.id = m.id then g x else x) =
        some (g r) := by
  have hlne : l ≠ [] := by
    intro h
    rw [h] at hm
    simp [mostRecentStatus] at hm
  have hmapne : (l.map fun x => if x.id = m.id then g x else x) ≠ [] := by
    intro h
    exact hlne (List.map_eq_nil_iff.mp h)
  obtain ⟨m2, hm2⟩ := mostRecentStatus_isSome_of_ne_nil hmapne
  obtain ⟨r, hr, hid, heq⟩ :=
    mostRecentStatus_map_update l m g hm c T hts hT hg hm2
  refine ⟨r, hr, hid, ?_⟩
  rw [← heq]
  exact hm2

/-- getSystemStatus returns the mapping of the most recently updated row. -/
theorem getSystemStatus_eq {s : Store} {m : StatusRow}
    (hm : mostRecentStatus s.statusRows = some m) :
    getSystemStatus s = Except.ok (statusRowToSystemStatus m) := by
  unfold getSystemStatus
  rw [hm]

/-- A descending insertion sort on readings with pairwise distinct
timestamps is strictly descending. -/
theorem insertionSort_desc_strict (l : List ReadingRow)
    (hnd : (l.map ReadingRow.timestamp).Nodup) :
    List.Pairwise (fun a b => b.timestamp < a.timestamp)
      (List.insertionSort readingDesc l) := by
  have hsorted : List.Sorted readingDesc (List.insertionSort readingDesc l) :=
    List.sorted_insertionSort readingDesc l
  have hperm : List.Perm (List.insertionSort readingDesc l) l :=
    List.perm_insertionSort readingDesc l
  have hnd2 :
      ((List.insertionSort readingDesc l).map ReadingRow.timestamp).Nodup :=
    (hperm.map ReadingRow.timestamp).nodup_iff.mpr hnd
  have hpne : List.Pairwise (fun a b : ReadingRow => a.timestamp ≠ b.timestamp)
      (List.insertionSort readingDesc l) := List.pairwise_map.mp hnd2
  exact (List.Pairwise.and hsorted hpne).imp
    fun h => Nat.lt_of_le_of_ne h.1 fun e => h.2 e.symm

/-- An ascending insertion sort on readings with pairwise distinct
timestamps is strictly ascending. -/
theorem insertionSort_asc_strict (l : List ReadingRow)
    (hnd : (l.map ReadingRow.timestamp).Nodup) :
    List.Pairwise (fun a b => a.timestamp < b.timestamp)
      (List.insertionSort readingAsc l) := by
  have hsorted : List.Sorted readingAsc (List.insertionSort readingAsc l) :=
    List.sorted_insertionSort readingAsc l
  have hperm : List.Perm (List.insertionSort readingAsc l) l :=
    List.perm_insertionSort readingAsc l
  have hnd2 :
      ((List.insertionSort readingAsc l).map ReadingRow.timestamp).Nodup :=
    (hperm.map ReadingRow.timestamp).nodup_iff.mpr hnd
  have hpne : List.Pairwise (fun a b : ReadingRow => a.timestamp ≠ b.timestamp)
      (List.insertionSort readingAsc l) := List.pairwise_map.mp hnd2
  exact (List.Pairwise.and hsorted hpne).imp
    fun h => Nat.lt_of_le_of_ne h.1 h.2

/-! ### Claim theorems -/

/-- C2: for every input with temperature outside [-50, 100], or ph outside
[0, 14], or tdsLevel outside [0, 5000], createSensorReading fails with a
ValidationError.  The checks run before the insert statement, and the
failing path of the embedding returns no new store, which models that no
reading row is added and the status row is unchanged. -/
theorem createSensorReading_out_of_range_fails
    (s : Store) (t p d : Rat)
    (h : t < -50 ∨ 100 < t ∨ p < 0 ∨ 14 < p ∨ d < 0 ∨ 5000 < d) :
    ∃ msg, createSensorReading s t p d =
      Except.error (DbError.validationError msg) := by
  unfold createSensorReading
  split
  · exact ⟨_, rfl⟩
  next h1 =>
    split
    · exact ⟨_, rfl⟩
    next h2 =>
      split
      · exact ⟨_, rfl⟩
      next h3 =>
        exfalso
        push_neg at h1 h2 h3
        rcases h with h | h | h | h | h | h <;>
          linarith [h1.1, h1.2, h2.1, h2.2, h3.1, h3.2]

/-- Witness for C2: temperature 200 is rejected with a ValidationError. -/
theorem createSensorReading_out_of_range_fails_witness :
    ∃ msg, createSensorReading emptyStore 200 7 500 =
      Except.error (DbError.validationError msg) :=
  createSensorReading_out_of_range_fails emptyStore 200 7 500
    (Or.inr (Or.inl (by norm_num)))

/-- C1 counterexample: on the bootstrapped store, updateSystemStatus with an
empty field set does not fail with a ValidationError; it succeeds, and it
does modify the status row: updated_at moves from 0 to 2 (the timestamp
touch is always appended). -/
theorem updateSystemStatus_empty_fieldset_cex :
    updateSystemStatus initStore {} =
      Except.ok (statusRowToSystemStatus (defaultStatusRow 0 0), touchedStore)
      ∧ touchedStore.statusRows ≠ initStore.statusRows := by
  exact ⟨rfl, by decide⟩

/-- C1 amended: for every state whose status table has a current row, an
update with an empty field set succeeds rather than failing: it returns the
current row unchanged and the only change to the table is the updated_at
touch on that row. -/
theorem updateSystemStatus_empty_fieldset_touch
    (s : Store) (m : StatusRow)
    (hm : mostRecentStatus s.statusRows = some m) :
    updateSystemStatus s {} =
      Except.ok (statusRowToSystemStatus m,
        { s with
          statusRows := s.statusRows.map fun r =>
            if r.id = m.id then { r with updatedAt := s.clock } else r
          clock := s.clock + 1 }) := by
  unfold updateSystemStatus
  rw [hm]
  rfl

/-- Witness for C1's amended theorem on the bootstrapped store. -/
theorem updateSystemStatus_empty_fieldset_touch_witness :
    updateSystemStatus initStore {} =
      Except.ok (statusRowToSystemStatus (defaultStatusRow 0 0),
        { initStore with
          statusRows := initStore.statusRows.map fun r =>
            if r.id = (defaultStatusRow 0 0).id then
              { r with updatedAt := initStore.clock }
            else r
          clock := initStore.clock + 1 }) :=
  updateSystemStatus_empty_fieldset_touch initStore (defaultStatusRow 0 0)
    (by decide)

/-- C4: for every state whose status table has a current row, an update that
supplies only cpuUsage changes exactly the cpu_usage column and the
updated_at touch on that row; every other field of the row, every other
status row, and the other tables are unchanged, and the returned status is
the pre-update row with only cpuUsage replaced. -/
theorem updateSystemStatus_cpuUsage_only_frame
    (s : Store) (q : Rat) (m : StatusRow)
    (hm : mostRecentStatus s.statusRows = some m) :
    updateSystemStatus s { cpuUsage := some q } =
      Except.ok ({ statusRowToSystemStatus m with cpuUsage := q },
        { s with
          statusRows := s.statusRows.map fun r =>
            if r.id = m.id then { r with cpuUsage := q, updatedAt := s.clock }
            else r
          clock := s.clock + 1 }) := by
  unfold updateSystemStatus
  rw [hm]
  rfl

/-- Witness for C4 on the bootstrapped store with cpuUsage 55. -/
theorem updateSystemStatus_cpuUsage_only_frame_witness :
    updateSystemStatus initStore { cpuUsage := some 55 } =
      Except.ok
        ({ statusRowToSystemStatus (defaultStatusRow 0 0) with cpuUsage := 55 },
         { initStore with
           statusRows := initStore.statusRows.map fun r =>
             if r.id = (defaultStatusRow 0 0).id then
               { r with cpuUsage := 55, updatedAt := initStore.clock }
             else r
           clock := initStore.clock + 1 }) :=
  updateSystemStatus_cpuUsage_only_frame initStore 55 (defaultStatusRow 0 0)
    (by decide)

/-- C10: in updateSystemStatus the string-valued fields connectionStatus,
lastUpdate and uptime are applied only when truthy (a supplied empty string
is silently dropped and the stored value kept), while the numeric fields
dataPoints, cpuUsage, memoryUsage and storageUsage are applied whenever
supplied, including when the supplied value is 0. -/
theorem updateSystemStatus_truthiness
    (s : Store) (m : StatusRow)
    (hm : mostRecentStatus s.statusRows = some m)
    (cs lu up : String) (dp : Int) (cu mu su : Rat) :
    ∃ s2, updateSystemStatus s
        { connectionStatus := some cs, lastUpdate := some lu,
          dataPoints := some dp, cpuUsage := some cu,
          memoryUsage := some mu, storageUsage := some su,
          uptime := some up } =
      Except.ok
        ({ id := m.id
           connectionStatus := if cs = "" then m.connectionStatus else cs
           lastUpdate := if lu = "" then m.lastUpdate else lu
           dataPoints := dp
           cpuUsage := cu
           memoryUsage := mu
           storageUsage := su
           uptime := if up = "" then m.uptime else up }, s2) := by
  unfold updateSystemStatus
  rw [hm]
  exact ⟨_, rfl⟩

/-- Witness for C10 on the bootstrapped store: empty-string
connectionStatus and uptime are dropped (the stored "connected" and "0s"
survive), the non-empty lastUpdate is applied, and the numeric fields are
applied even when 0. -/
theorem updateSystemStatus_truthiness_witness :
    ∃ s2, updateSystemStatus initStore
        { connectionStatus := some "", lastUpdate := some "2020",
          dataPoints := some 7, cpuUsage := some 0,
          memoryUsage := some 0, storageUsage := some 90,
          uptime := some "" } =
      Except.ok
        ({ id := 0, connectionStatus := "connected", lastUpdate := "2020",
           dataPoints := 7, cpuUsage := 0, memoryUsage := 0,
           storageUsage := 90, uptime := "0s" }, s2) :=
  updateSystemStatus_truthiness initStore (defaultStatusRow 0 0)
    (by decide) "" "2020" "" 7 0 0 90

/-- C3: for every state whose status table is non-empty and whose status
rows carry timestamps no newer than the clock (true of every state the
operations produce), after a successful createSensorReading the dataPoints
field returned by getSystemStatus equals the total number of rows in the
readings table. -/
theorem createSensorReading_dataPoints_count
    (s : Store) (t p d : Rat) (row : ReadingRow) (s2 : Store)
    (hne : s.statusRows ≠ [])
    (hts : ∀ r ∈ s.statusRows, r.updatedAt ≤ s.clock)
    (hok : createSensorReading s t p d = Except.ok (row, s2)) :
    ∃ st, getSystemStatus s2 = Except.ok st ∧
      st.dataPoints = (s2.readings.length : Int) := by
  obtain ⟨m, hm⟩ := mostRecentStatus_isSome_of_ne_nil hne
  unfold createSensorReading at hok
  split at hok
  · simp at hok
  · split at hok
    · simp at hok
    · split at hok
      · simp at hok
      · simp only [hm] at hok
        rw [Except.ok.injEq, Prod.mk.injEq] at hok
        obtain ⟨-, hs2⟩ := hok
        subst hs2
        obtain ⟨r, hr, hid, hsel⟩ :=
          mostRecentStatus_map_current s.statusRows m
            (fun x => { x with
              dataPoints := ((s.readings ++
                [ReadingRow.mk s.nextId s.clock t p d s.clock]).length : Int)
              lastUpdate := toString (s.clock + 1)
              updatedAt := s.clock + 1 })
            hm s.clock (s.clock + 1) hts (Nat.lt_succ_self _) (fun _ => rfl)
        exact ⟨_, getSystemStatus_eq hsel, rfl⟩

/-- Witness for C3: the concrete run on the bootstrapped store; afterwards
getSystemStatus reports dataPoints 1 = the number of readings. -/
theorem createSensorReading_dataPoints_count_witness :
    ∃ st, getSystemStatus afterCreateStore = Except.ok st ∧
      st.dataPoints = (afterCreateStore.readings.length : Int) :=
  createSensorReading_dataPoints_count initStore 25 7 500 rowV
    afterCreateStore (by decide) (by decide) rfl

/-- C5: updateAlertSettings on an empty alert-settings table inserts
exactly one row holding the given booleans; on a non-empty table it mutates
the most recently updated row in place and inserts nothing, keeping the row
count unchanged; on either path it returns the given boolean values. -/
theorem updateAlertSettings_upsert (s : Store) (a : AlertSettings) :
    (updateAlertSettings s a).1 = a ∧
    (s.alertRows = [] →
      (updateAlertSettings s a).2.alertRows =
        [{ id := s.nextId, temperatureAlerts := a.temperatureAlerts,
           phAlerts := a.phAlerts, tdsLevelAlerts := a.tdsLevelAlerts,
           updatedAt := s.clock }]) ∧
    (s.alertRows ≠ [] →
      ∃ m, mostRecentAlert s.alertRows = some m ∧
        (updateAlertSettings s a).2.alertRows =
          s.alertRows.map (fun r =>
            if r.id = m.id then
              { r with temperatureAlerts := a.temperatureAlerts,
                       phAlerts := a.phAlerts,
                       tdsLevelAlerts := a.tdsLevelAlerts,
                       updatedAt := s.clock }
            else r) ∧
        (updateAlertSettings s a).2.alertRows.length =
          s.alertRows.length) := by
  refine ⟨?_, ?_, ?_⟩
  · unfold updateAlertSettings
    cases h : mostRecentAlert s.alertRows with
    | none => simp only [h]
    | some m => simp only [h]
  · intro he
    unfold updateAlertSettings
    simp only [he, mostRecentAlert, List.nil_append]
  · intro hne
    obtain ⟨m, hm⟩ := mostRecentAlert_isSome_of_ne_nil hne
    refine ⟨m, hm, ?_, ?_⟩
    · unfold updateAlertSettings
      simp only [hm]
    · unfold updateAlertSettings
      simp only [hm, List.length_map]

/-- Witness for C5: on the empty store the row is created with the given
values; on the bootstrapped store the row count stays at one and the given
values are returned. -/
theorem updateAlertSettings_upsert_witness :
    (updateAlertSettings emptyStore ⟨false, true, true⟩).2.alertRows =
      [⟨0, false, true, true, 0⟩] ∧
    (updateAlertSettings initStore ⟨false, false, true⟩).1 =
      ⟨false, false, true⟩ ∧
    (updateAlertSettings initStore ⟨false, false, true⟩).2.alertRows.length =
      initStore.alertRows.length := by
  refine ⟨(updateAlertSettings_upsert emptyStore ⟨false, true, true⟩).2.1 rfl,
    (updateAlertSettings_upsert initStore ⟨false, false, true⟩).1, ?_⟩
  obtain ⟨m, hm, hmap, hlen⟩ :=
    (updateAlertSettings_upsert initStore ⟨false, false, true⟩).2.2 (by decide)
  exact hlen

/-- C6: initializeTables is idempotent: a second call on an already
bootstrapped state inserts no additional default rows, so the status table
and the alert-settings table contain exactly the rows of the first call. -/
theorem initializeTables_idempotent (s : Store) :
    (initializeTables (initializeTables s)).statusRows =
      (initializeTables s).statusRows ∧
    (initializeTables (initializeTables s)).alertRows =
      (initializeTables s).alertRows := by
  by_cases h1 : s.statusRows.length = 0 <;>
    by_cases h2 : s.alertRows.length = 0 <;>
      simp [initializeTables, h1, h2]

/-- C7: after initializeTables on an empty store, getSystemStatus reports
connectionStatus "connected" with dataPoints 0, and getAlertSettings
returns temperatureAlerts true, phAlerts true, tdsLevelAlerts false. -/
theorem initializeTables_bootstrap (s : Store)
    (h1 : s.statusRows = []) (h2 : s.alertRows = []) :
    (∃ st, getSystemStatus (initializeTables s) = Except.ok st ∧
      st.connectionStatus = "connected" ∧ st.dataPoints = 0) ∧
    (getAlertSettings (initializeTables s)).1 =
      { temperatureAlerts := true, phAlerts := true,
        tdsLevelAlerts := false } := by
  have e : initializeTables s =
      { s with
        statusRows := [defaultStatusRow s.nextId s.clock]
        alertRows := [defaultAlertRow (s.nextId + 1) (s.clock + 1)]
        nextId := s.nextId + 1 + 1
        clock := s.clock + 1 + 1 } := by
    unfold initializeTables
    simp [h1, h2]
  rw [e]
  exact ⟨⟨_, rfl, rfl, rfl⟩, rfl⟩

/-- Witness for C7 on the empty store. -/
theorem initializeTables_bootstrap_witness :
    (∃ st, getSystemStatus initStore = Except.ok st ∧
      st.connectionStatus = "connected" ∧ st.dataPoints = 0) ∧
    (getAlertSettings initStore).1 =
      { temperatureAlerts := true, phAlerts := true,
        tdsLevelAlerts := false } :=
  initializeTables_bootstrap emptyStore rfl rfl

/-- C8: getSensorReadings returns at most limit readings, strictly
descending by timestamp whenever the stored timestamps are pairwise
distinct (true of every state the operations produce), and the limit
defaults to 50. -/
theorem getSensorReadings_spec (s : Store) (n : Nat)
    (hnd : (s.readings.map ReadingRow.timestamp).Nodup) :
    (getSensorReadings s n).length ≤ n ∧
    List.Pairwise (fun a b => b.timestamp < a.timestamp)
      (getSensorReadings s n) ∧
    getSensorReadingsDefault s = getSensorReadings s 50 := by
  refine ⟨List.length_take_le .., ?_, rfl⟩
  exact (insertionSort_desc_strict s.readings hnd).sublist
    (List.take_sublist n _)

/-- Witness for C8 on the sample store with limit 2. -/
theorem getSensorReadings_spec_witness :
    (getSensorReadings sampleStore 2).length ≤ 2 ∧
    List.Pairwise (fun a b => b.timestamp < a.timestamp)
      (getSensorReadings sampleStore 2) ∧
    getSensorReadingsDefault sampleStore = getSensorReadings sampleStore 50 :=
  getSensorReadings_spec sampleStore 2 (by decide)

/-- C9: getSensorReadingsByTimeRange returns exactly the readings whose
timestamp lies in the inclusive range (as a permutation of the filtered
table, with a membership characterization and no row limit), strictly
ascending by timestamp whenever the stored timestamps are pairwise
distinct. -/
theorem getSensorReadingsByTimeRange_spec (s : Store) (a b : Time)
    (hnd : (s.readings.map ReadingRow.timestamp).Nodup) :
    List.Perm (getSensorReadingsByTimeRange s a b)
      (s.readings.filter fun r =>
        decide (a ≤ r.timestamp) && decide (r.timestamp ≤ b)) ∧
    (∀ r, r ∈ getSensorReadingsByTimeRange s a b ↔
      (r ∈ s.readings ∧ a ≤ r.timestamp ∧ r.timestamp ≤ b)) ∧
    List.Pairwise (fun x y => x.timestamp < y.timestamp)
      (getSensorReadingsByTimeRange s a b) := by
  unfold getSensorReadingsByTimeRange
  refine ⟨List.perm_insertionSort _ _, ?_, ?_⟩
  · intro r
    rw [List.mem_insertionSort, List.mem_filter]
    simp
  · refine insertionSort_asc_strict _ ?_
    exact hnd.sublist ((List.filter_sublist s.readings).map
      ReadingRow.timestamp)

/-- Witness for C9 on the sample store with range [6, 9]. -/
theorem getSensorReadingsByTimeRange_spec_witness :
    List.Perm (getSensorReadingsByTimeRange sampleStore 6 9)
      (sampleStore.readings.filter fun r =>
        decide (6 ≤ r.timestamp) && decide (r.timestamp ≤ 9)) ∧
    (∀ r, r ∈ getSensorReadingsByTimeRange sampleStore 6 9 ↔
      (r ∈ sampleStore.readings ∧ 6 ≤ r.timestamp ∧ r.timestamp ≤ 9)) ∧
    List.Pairwise (fun x y => x.timestamp < y.timestamp)
      (getSensorReadingsByTimeRange sampleStore 6 9) :=
  getSensorReadingsByTimeRange_spec sampleStore 6 9 (by decide)

end DRPTM
